import Mathlib

/-!
Verification of the quota-puppeteer-api extraction core and request handler
(src/server.js) against its specification.

Modelling conventions, shared by all definitions below:

* DOM snapshot: the loaded document is the list of its table rows in document
  order, each row the list of the trimmed-source text contents of its td cells
  (`document.querySelectorAll('tr')`, `row.querySelectorAll('td')`,
  `textContent`).  A null `textContent` is modelled as the empty string, which
  the `?.trim() || ''` chain in the source collapses to anyway.
* JS numbers: every number produced by this program comes from `parseFloat` on
  a string of digits and dots, or from multiplying such a value by 1000 and
  rounding.  These are exact decimal values, so they are modelled as scaled
  integers (`Dec` below, value num / 10^scale) with an exact rational
  semantics `decVal`; `NaN` is modelled as `Option.none`.  Binary floating
  point rounding error is idealised away.
* `Math.round x` is `⌊x + 1/2⌋` (JS rounds half-up, towards +infinity).
* The regular expression `/([\d\s.]+)\s*(Kilogram|Tonne|kg|TNE)/i` of line 79
  is modelled operationally: leftmost match, a greedy, backtracking numeric
  token, `\s*` skipping, then the ordered case-insensitive alternation.  The
  `/i` flag and `toLowerCase()` act on ASCII letters here, which is all the
  unit alternation can match.
* `scrapedAt` (`new Date().toISOString()`) is wall-clock output with no
  data-flow into any other field, and is omitted from the record model.
-/

/-- Characters matched by the JS regex class `\s` (also the characters removed
by `String.prototype.trim`). -/
def isJsSpace (c : Char) : Bool :=
  c.toNat = 32 || c.toNat = 9 || c.toNat = 10 || c.toNat = 11 || c.toNat = 12 ||
  c.toNat = 13 || c.toNat = 160 || c.toNat = 5760 ||
  (8192 ≤ c.toNat && c.toNat ≤ 8202) || c.toNat = 8232 || c.toNat = 8233 ||
  c.toNat = 8239 || c.toNat = 8287 || c.toNat = 12288 || c.toNat = 65279

/-- Characters matched by the JS regex class `\d` (ASCII digits). -/
def isDigitChar (c : Char) : Bool :=
  48 ≤ c.toNat && c.toNat ≤ 57

/-- Characters matched by the numeric-token class `[\d\s.]` of line 79. -/
def isNumClass (c : Char) : Bool :=
  isDigitChar c || isJsSpace c || c.toNat = 46

/-- ASCII lower-casing, the fragment of `String.prototype.toLowerCase` that
can act on text matched by the ASCII-only unit alternation. -/
def asciiToLower (c : Char) : Char :=
  if 65 ≤ c.toNat ∧ c.toNat ≤ 90 then Char.ofNat (c.toNat + 32) else c

/-- Value of a decimal digit list, most significant first. -/
def digitsToNat (l : List Char) : ℕ :=
  List.foldl (fun a c => 10 * a + (c.toNat - 48)) 0 l

/-- Hexadecimal digit test, for the `0x` form accepted by `parseInt`. -/
def isHexDigitChar (c : Char) : Bool :=
  (48 ≤ c.toNat && c.toNat ≤ 57) || (97 ≤ c.toNat && c.toNat ≤ 102) ||
  (65 ≤ c.toNat && c.toNat ≤ 70)

/-- Value of one hexadecimal digit. -/
def hexDigitVal (c : Char) : ℕ :=
  if 48 ≤ c.toNat ∧ c.toNat ≤ 57 then c.toNat - 48
  else if 97 ≤ c.toNat ∧ c.toNat ≤ 102 then c.toNat - 87
  else if 65 ≤ c.toNat ∧ c.toNat ≤ 70 then c.toNat - 55
  else 0

/-- Value of a hexadecimal digit list, most significant first. -/
def hexToNat (l : List Char) : ℕ :=
  List.foldl (fun a c => 16 * a + hexDigitVal c) 0 l

/-- JS `String.prototype.trim`: drop leading and trailing `\s` characters. -/
def trimList (l : List Char) : List Char :=
  ((l.dropWhile isJsSpace).reverse.dropWhile isJsSpace).reverse

/-- String wrapper for `trimList`, modelling `.trim()`. -/
def jsTrim (s : String) : String :=
  String.mk (trimList s.data)

/-- Model of `.replace(/\s/g, '')` (line 82): remove every `\s` character. -/
def stripWs (s : String) : String :=
  String.mk (s.data.filter (fun c => ! isJsSpace c))

/-- ASCII lower-casing of a string, modelling `.toLowerCase()` on the matched
unit token (line 83). -/
def strLower (s : String) : String :=
  String.mk (s.data.map asciiToLower)

/-- Boolean list-prefix test, modelling `String.prototype.startsWith`. -/
def listIsPref : List Char → List Char → Bool
  | [], _ => true
  | _ :: _, [] => false
  | a :: as, b :: bs => a = b && listIsPref as bs

/-- Exact decimal value `num / 10 ^ scale`: the model of the finite JS numbers
this program can produce (see the module comment). -/
structure Dec where
  num : ℤ
  scale : ℕ
deriving DecidableEq

/-- Rational value denoted by a `Dec`. -/
def decVal (d : Dec) : ℚ :=
  (d.num : ℚ) / 10 ^ d.scale

/-- Model of `Math.round` on a `Dec` value: `⌊v + 1/2⌋`, computed exactly as
an integer division (the denominators are positive, and `/` on `ℤ` is floor
division for positive divisors). -/
def jsRoundDec (d : Dec) : ℤ :=
  (2 * d.num + ((10 ^ d.scale : ℕ) : ℤ)) / ((2 * 10 ^ d.scale : ℕ) : ℤ)

/-- Model of JS `parseFloat` on the strings this program feeds it: the capture
of the class `[\d\s.]+` with its whitespace removed, hence digits and dots
only.  On that alphabet `parseFloat` reads a longest prefix of the form
`digits [. digits]` or `. digits`; with no such prefix the result is `NaN`
(`none`).  Sign, exponent and `Infinity` forms cannot occur on this alphabet. -/
def parseDecList (l : List Char) : Option Dec :=
  if l.takeWhile isDigitChar = [] then
    match l with
    | '.' :: r =>
        if r.takeWhile isDigitChar = [] then none
        else
          some ⟨(digitsToNat (r.takeWhile isDigitChar) : ℤ),
            (r.takeWhile isDigitChar).length⟩
    | _ => none
  else
    match l.drop (l.takeWhile isDigitChar).length with
    | '.' :: r =>
        some ⟨(digitsToNat (l.takeWhile isDigitChar) * 10 ^ (r.takeWhile isDigitChar).length
            + digitsToNat (r.takeWhile isDigitChar) : ℕ),
          (r.takeWhile isDigitChar).length⟩
    | _ => some ⟨(digitsToNat (l.takeWhile isDigitChar) : ℤ), 0⟩

/-- String wrapper for `parseDecList`, modelling line 82's
`parseFloat(match[1].replace(/\s/g, ''))` once the whitespace is gone. -/
def jsParseFloat (s : String) : Option Dec :=
  parseDecList s.data

/-- Case-insensitive match of one alternative `w` (given lower-case) against a
prefix of `l`, returning the matched text itself, as a capture group does. -/
def tryUnit (w : List Char) (l : List Char) : Option (List Char) :=
  let t := l.take w.length
  if t.length = w.length ∧ t.map asciiToLower = w then some t else none

/-- The ordered alternation `(Kilogram|Tonne|kg|TNE)` under `/i`, matched at
the head of `l`. -/
def matchUnitAt (l : List Char) : Option (List Char) :=
  (tryUnit [ 'k', 'i', 'l', 'o', 'g', 'r', 'a', 'm' ] l) <|>
  (tryUnit [ 't', 'o', 'n', 'n', 'e' ] l) <|>
  (tryUnit [ 'k', 'g' ] l) <|>
  (tryUnit [ 't', 'n', 'e' ] l)

/-- Backtracking step of the greedy class `[\d\s.]+`: try taking `k` leading
class characters, largest `k` first, and after each candidate skip `\s*` and
try the unit alternation.  (`\s*` can be taken maximal here: every alternative
starts with a letter, which `\s` never matches.) -/
def greedyFrom (l : List Char) : ℕ → Option (List Char × List Char)
  | 0 => none
  | Nat.succ k =>
      match matchUnitAt ((l.drop (Nat.succ k)).dropWhile isJsSpace) with
      | some u => some (l.take (Nat.succ k), u)
      | none => greedyFrom l k

/-- Attempt to match the whole pattern with the numeric token starting exactly
at the head of `l`. -/
def matchAtStart (l : List Char) : Option (List Char × List Char) :=
  greedyFrom l (l.takeWhile isNumClass).length

/-- Leftmost-match search: try every start position from the left, as the JS
regex engine does for an unanchored pattern. -/
def findMatch : List Char → Option (List Char × List Char)
  | [] => none
  | c :: rest =>
      match matchAtStart (c :: rest) with
      | some r => some r
      | none => findMatch rest

/-- Model of line 79, `balanceText.match(/([\d\s.]+)\s*(Kilogram|Tonne|kg|TNE)/i)`:
`none` when the pattern does not match, otherwise the two capture groups
(numeric token, unit token). -/
def matchBalance (s : String) : Option (String × String) :=
  (findMatch s.data).map (fun p => (String.mk p.1, String.mk p.2))

/-- Lines 82-85: parse the numeric token, lower-case the unit, detect tonnes
(`unit.startsWith('t') || unit === 'tne'`), and convert tonnes to kilograms by
`Math.round(rawValue * 1000)`.  `none` is a `NaN` balance. -/
def balanceKgOf (numTok unitTok : String) : Option Dec :=
  let rawValue := jsParseFloat (stripWs numTok)
  let unit := strLower unitTok
  let isTonne := listIsPref [ 't' ] unit.data || unit.data == [ 't', 'n', 'e' ]
  if isTonne then
    Option.map (fun d => (⟨jsRoundDec ⟨d.num * 1000, d.scale⟩, 0⟩ : Dec)) rawValue
  else rawValue

/-- JS template interpolation of a number that is an integer or `NaN`,
as in `` `${Math.round(balanceKg)} Kilogram` ``. -/
def jsIntStr : Option ℤ → String
  | none => "NaN"
  | some n => toString n

/-- Line 95's date reversal `startDate.split('-').reverse().join('-')`:
split on every hyphen. -/
def splitDash (l : List Char) : List (List Char) :=
  List.foldr
    (fun c acc =>
      if c = '-' then [] :: acc
      else
        match acc with
        | h :: t => (c :: h) :: t
        | [] => [[c]])
    [[]] l

/-- Join with hyphens, modelling `Array.prototype.join('-')`. -/
def joinDash : List (List Char) → List Char
  | [] => []
  | [x] => x
  | x :: y :: ys => x ++ '-' :: joinDash (y :: ys)

/-- The composite `s.split('-').reverse().join('-')` of line 95. -/
def reverseDashed (s : String) : String :=
  String.mk (joinDash (splitDash s.data).reverse)

/-- The record built at lines 87-97 (without the wall-clock `scrapedAt`). -/
structure QuotaRecord where
  orderNumber : String
  origin : String
  startDate : String
  endDate : String
  balance : String
  balanceKg : Option ℤ
  unit : String
  moreInfoUrl : String
deriving DecidableEq

/-- One iteration of the row loop (lines 67-98) on a single row: skip rows
with fewer than 5 cells, require the trimmed first cell to equal the queried
order number, require the balance pattern to match, and otherwise build the
result record.  `none` means the loop continues with the next row. -/
def processRow (ordNum : String) (cells : List String) : Option QuotaRecord :=
  if cells.length < 5 then none
  else if jsTrim (cells.getD 0 "") ≠ ordNum then none
  else
    match matchBalance (jsTrim (cells.getD 4 "")) with
    | none => none
    | some (numTok, unitTok) =>
        some
          { orderNumber := ordNum
            origin := jsTrim (cells.getD 1 "")
            startDate := jsTrim (cells.getD 2 "")
            endDate := jsTrim (cells.getD 3 "")
            balance :=
              jsIntStr (Option.map jsRoundDec (balanceKgOf numTok unitTok)) ++
                " Kilogram"
            balanceKg := Option.map jsRoundDec (balanceKgOf numTok unitTok)
            unit := "Kilogram"
            moreInfoUrl :=
              "https://ec.europa.eu/taxation_customs/dds2/taric/quota_tariff_details.jsp?Lang=en&StartDate="
                ++ reverseDashed (jsTrim (cells.getD 2 "")) ++ "&Code=" ++ ordNum }

/-- The whole `page.evaluate` callback (lines 64-101): scan the document's
rows in order and return the first row's record, or `null` (`none`). -/
def extract (doc : List (List String)) (ordNum : String) : Option QuotaRecord :=
  match doc with
  | [] => none
  | row :: rest =>
      match processRow ordNum row with
      | some rec => some rec
      | none => extract rest ordNum

/-- A row the scanner accepts: at least 5 cells, first cell (trimmed) equal to
the queried order number, and a balance cell the pattern matches. -/
def rowGood (ordNum : String) (cells : List String) : Prop :=
  5 ≤ cells.length ∧ jsTrim (cells.getD 0 "") = ordNum ∧
    matchBalance (jsTrim (cells.getD 4 "")) ≠ none

/-- The balance-cell processing in isolation (used to state unit-case
insensitivity): the rounded integer `balanceKg` that a given balance cell text
yields, `none` when the pattern does not match, `some none` when it matches
but the value is `NaN`. -/
def cellBalanceKg (balanceText : String) : Option (Option ℤ) :=
  (matchBalance balanceText).map
    (fun p => Option.map jsRoundDec (balanceKgOf p.1 p.2))

/-- Model of JS `parseInt(s)` with no radix argument: skip leading whitespace,
read an optional sign, accept a `0x`/`0X` hexadecimal prefix, then take the
longest digit prefix; no digits gives `NaN` (`none`). -/
def parseIntBody : List Char → Option ℕ
  | '0' :: 'x' :: r =>
      let ds := r.takeWhile isHexDigitChar
      if ds = [] then none else some (hexToNat ds)
  | '0' :: 'X' :: r =>
      let ds := r.takeWhile isHexDigitChar
      if ds = [] then none else some (hexToNat ds)
  | l =>
      let ds := l.takeWhile isDigitChar
      if ds = [] then none else some (digitsToNat ds)

/-- Signed wrapper of `parseIntBody`, modelling line 53's `parseInt(year)`. -/
def jsParseInt (s : String) : Option ℤ :=
  match s.data.dropWhile isJsSpace with
  | '-' :: r => Option.map (fun n => -(n : ℤ)) (parseIntBody r)
  | '+' :: r => Option.map (fun n => (n : ℤ)) (parseIntBody r)
  | r => Option.map (fun n => (n : ℤ)) (parseIntBody r)

/-- The three query parameters of `GET /api/quota`; `none` is an absent
parameter. -/
structure Query where
  orderNumber : Option String
  year : Option String
  origin : Option String
deriving DecidableEq

/-- JS falsiness of a query-string value, as tested by line 27's `!x`:
absent (`undefined`) or the empty string. -/
def falsy : Option String → Bool
  | none => true
  | some s => s.data = []

/-- The navigation URL template of line 55.  `none` year values print as
`NaN`, as JS template interpolation of `NaN` does. -/
def buildUrl (ordNum origin : String) (currentYear nextYear : Option ℤ) : String :=
  "https://ec.europa.eu/taxation_customs/dds2/taric/quota_consultation.jsp?Lang=en&Code="
    ++ ordNum ++ "&Origin=" ++ origin ++ "&Expand=true&Year="
    ++ jsIntStr currentYear ++ "&Year=" ++ jsIntStr nextYear

/-- Responses the handler can send, with the payloads the source attaches
(error responses echo order number, origin and year for traceability). -/
inductive Resp where
  | badRequest : List String → Query → Resp
  | ok : QuotaRecord → Resp
  | notFound : String → String → String → Resp
  | serverError : String → String → String → Resp
deriving DecidableEq

/-- HTTP status of each response shape (lines 28, 107, 117, 130). -/
def Resp.statusCode : Resp → ℕ
  | .badRequest _ _ => 400
  | .ok _ => 200
  | .notFound _ _ _ => 404
  | .serverError _ _ _ => 500

/-- Browser-session events a request emits, in order: a successful
`puppeteer.launch`, a `page.goto` navigation, and each `browser.close()`
invocation (counted even when that invocation itself then throws). -/
inductive Ev where
  | launch : Ev
  | goto : String → Ev
  | close : Ev
deriving DecidableEq

/-- Failure schedule for one request: which of the awaited steps (and the
response send) throw.  Each field stands for the corresponding call in the
`try` block rejecting/throwing at lines 40, 50, 51, 59, 64, 103, 107/117. -/
structure FailSpec where
  launchThrows : Bool
  newPageThrows : Bool
  setUserAgentThrows : Bool
  gotoThrows : Bool
  evaluateThrows : Bool
  closeThrows : Bool
  respondThrows : Bool
deriving DecidableEq

/-- The all-success schedule. -/
def allOk : FailSpec :=
  ⟨false, false, false, false, false, false, false⟩

/-- Result of one request: the response sent and the session-event trace. -/
structure HandlerOut where
  resp : Resp
  trace : List Ev
deriving DecidableEq

/-- The body of the `try`/`catch` of lines 39-137, after validation, as a
function of the failure schedule.  A throw at any step transfers control to
the `catch` block, which closes the browser again whenever the `browser`
variable is non-null — including when the first `browser.close()` has already
run (lines 103 and 126-128). -/
def handleCore (ordNum yearS origin : String) (doc : List (List String))
    (fs : FailSpec) : HandlerOut :=
  if fs.launchThrows then ⟨.serverError ordNum origin yearS, []⟩
  else if fs.newPageThrows then ⟨.serverError ordNum origin yearS, [.launch, .close]⟩
  else if fs.setUserAgentThrows then ⟨.serverError ordNum origin yearS, [.launch, .close]⟩
  else
    let cy := jsParseInt yearS
    let url := buildUrl ordNum origin cy (Option.map (fun n => n + 1) cy)
    if fs.gotoThrows then
      ⟨.serverError ordNum origin yearS, [.launch, .goto url, .close]⟩
    else if fs.evaluateThrows then
      ⟨.serverError ordNum origin yearS, [.launch, .goto url, .close]⟩
    else
      let result := extract doc ordNum
      if fs.closeThrows then
        ⟨.serverError ordNum origin yearS, [.launch, .goto url, .close, .close]⟩
      else
        match result with
        | none =>
            if fs.respondThrows then
              ⟨.serverError ordNum origin yearS, [.launch, .goto url, .close, .close]⟩
            else ⟨.notFound ordNum origin yearS, [.launch, .goto url, .close]⟩
        | some rec =>
            if fs.respondThrows then
              ⟨.serverError ordNum origin yearS, [.launch, .goto url, .close, .close]⟩
            else ⟨.ok rec, [.launch, .goto url, .close]⟩

/-- The full `GET /api/quota` handler (lines 24-138): parameter-presence
validation, then the browser session. -/
def handle (q : Query) (doc : List (List String)) (fs : FailSpec) : HandlerOut :=
  if falsy q.orderNumber || falsy q.year || falsy q.origin then
    ⟨.badRequest [ "orderNumber", "year", "origin" ] q, []⟩
  else
    handleCore (q.orderNumber.getD "") (q.year.getD "") (q.origin.getD "") doc fs

/-- Number of `browser.close()` invocations in a trace. -/
def countClose (t : List Ev) : ℕ :=
  t.countP (fun e => match e with | .close => true | _ => false)

/-- Number of successful `puppeteer.launch` calls in a trace. -/
def countLaunch (t : List Ev) : ℕ :=
  t.countP (fun e => match e with | .launch => true | _ => false)

/-- Substring relation on strings (`pat` occurs contiguously in `s`). -/
def HasSubstr (pat s : String) : Prop :=
  ∃ a b, s.data = a ++ (pat.data ++ b)

theorem jsRoundDec_eq_floor (d : Dec) : jsRoundDec d = ⌊decVal d + 1 / 2⌋ := by
  have h1 : decVal d + 1 / 2 =
      ((2 * d.num + ((10 ^ d.scale : ℕ) : ℤ) : ℤ) : ℚ) / ((2 * 10 ^ d.scale : ℕ) : ℚ) := by
    unfold decVal
    have hs : ((10 : ℚ) ^ d.scale) ≠ 0 := by positivity
    push_cast
    field_simp
    ring
  rw [jsRoundDec, h1, Rat.floor_intCast_div_natCast]

theorem jsRoundDec_int (n : ℤ) : jsRoundDec ⟨n, 0⟩ = n := by
  rw [jsRoundDec_eq_floor]
  have h1 : decVal ⟨n, 0⟩ + 1 / 2 = 1 / 2 + (n : ℚ) := by
    unfold decVal
    push_cast
    ring
  rw [h1, Int.floor_add_int]
  norm_num

theorem jsRoundDec_nonneg (d : Dec) (h : 0 ≤ d.num) : 0 ≤ jsRoundDec d :=
  Int.ediv_nonneg (by positivity) (by positivity)

theorem parseDecList_num_nonneg (l : List Char) (d : Dec)
    (h : parseDecList l = some d) : 0 ≤ d.num := by
  unfold parseDecList at h
  split at h
  · split at h
    · split at h
      · exact absurd h (by simp)
      · rw [Option.some.injEq] at h
        subst h
        positivity
    · exact absurd h (by simp)
  · split at h
    · rw [Option.some.injEq] at h
      subst h
      positivity
    · rw [Option.some.injEq] at h
      subst h
      positivity

theorem balanceKgOf_tonne (numTok unitTok : String) (d : Dec)
    (hb : (listIsPref [ 't' ] (strLower unitTok).data ||
      ((strLower unitTok).data == [ 't', 'n', 'e' ])) = true)
    (hval : jsParseFloat (stripWs numTok) = some d) :
    balanceKgOf numTok unitTok = some ⟨jsRoundDec ⟨d.num * 1000, d.scale⟩, 0⟩ := by
  simp only [balanceKgOf]
  rw [hval, hb]
  simp

theorem balanceKgOf_kg (numTok unitTok : String)
    (hb : (listIsPref [ 't' ] (strLower unitTok).data ||
      ((strLower unitTok).data == [ 't', 'n', 'e' ])) = false) :
    balanceKgOf numTok unitTok = jsParseFloat (stripWs numTok) := by
  simp only [balanceKgOf]
  rw [hb]
  simp

theorem processRow_some_balanceKg (ordNum : String) (cells : List String)
    (rec : QuotaRecord) (numTok unitTok : String)
    (hrow : processRow ordNum cells = some rec)
    (hmatch : matchBalance (jsTrim (cells.getD 4 "")) = some (numTok, unitTok)) :
    rec.balanceKg = Option.map jsRoundDec (balanceKgOf numTok unitTok) := by
  unfold processRow at hrow
  split at hrow
  · exact absurd hrow (by simp)
  · split at hrow
    · exact absurd hrow (by simp)
    · rw [hmatch] at hrow
      rw [Option.some.injEq] at hrow
      subst hrow
      rfl

/-- C1: for every matched table row whose balance cell is tonne-denominated
(unit token `Tonne` or `TNE` in any letter case, i.e. lower-casing to
`tonne` or `tne`), the extracted `balanceKg` equals the parsed numeric value
multiplied by 1000 and rounded to the nearest integer (half-up). -/
theorem c1_tonne_times_thousand (ordNum : String) (cells : List String)
    (rec : QuotaRecord) (numTok unitTok : String) (d : Dec)
    (hrow : processRow ordNum cells = some rec)
    (hmatch : matchBalance (jsTrim (cells.getD 4 "")) = some (numTok, unitTok))
    (hunit : strLower unitTok = "tonne" ∨ strLower unitTok = "tne")
    (hval : jsParseFloat (stripWs numTok) = some d) :
    rec.balanceKg = some ⌊decVal d * 1000 + 1 / 2⌋ := by
  rw [processRow_some_balanceKg ordNum cells rec numTok unitTok hrow hmatch]
  have hb : (listIsPref [ 't' ] (strLower unitTok).data ||
      ((strLower unitTok).data == [ 't', 'n', 'e' ])) = true := by
    rcases hunit with h | h <;> rw [h] <;> decide
  rw [balanceKgOf_tonne numTok unitTok d hb hval]
  have hv : decVal ⟨d.num * 1000, d.scale⟩ = decVal d * 1000 := by
    unfold decVal
    push_cast
    ring
  simp only [Option.map_some']
  rw [jsRoundDec_int, jsRoundDec_eq_floor, hv]

/-- C1 witness: the claim's two examples, `12 Tonne` giving 12000 kg and
`0.5 TNE` giving 500 kg. -/
theorem c1_tonne_times_thousand_witness :
    (some (12000 : ℤ) = some ⌊decVal ⟨12, 0⟩ * 1000 + 1 / 2⌋) ∧
    (some (500 : ℤ) = some ⌊decVal ⟨5, 1⟩ * 1000 + 1 / 2⌋) :=
  ⟨c1_tonne_times_thousand "098701"
      [ "098701", "Brazil", "01-01-2025", "31-12-2025", "12 Tonne" ]
      { orderNumber := "098701", origin := "Brazil", startDate := "01-01-2025",
        endDate := "31-12-2025", balance := "12000 Kilogram",
        balanceKg := some 12000, unit := "Kilogram",
        moreInfoUrl := "https://ec.europa.eu/taxation_customs/dds2/taric/quota_tariff_details.jsp?Lang=en&StartDate=2025-01-01&Code=098701" }
      "12 " "Tonne" ⟨12, 0⟩ (by decide) (by decide) (Or.inl (by decide)) (by decide),
   c1_tonne_times_thousand "098701"
      [ "098701", "Brazil", "01-01-2025", "31-12-2025", "0.5 TNE" ]
      { orderNumber := "098701", origin := "Brazil", startDate := "01-01-2025",
        endDate := "31-12-2025", balance := "500 Kilogram",
        balanceKg := some 500, unit := "Kilogram",
        moreInfoUrl := "https://ec.europa.eu/taxation_customs/dds2/taric/quota_tariff_details.jsp?Lang=en&StartDate=2025-01-01&Code=098701" }
      "0.5 " "TNE" ⟨5, 1⟩ (by decide) (by decide) (Or.inr (by decide)) (by decide)⟩

/-- C2: for every matched table row whose balance cell is
kilogram-denominated (unit token `Kilogram` or `kg` in any letter case), the
extracted `balanceKg` equals the parsed numeric value (taken from the numeric
token with its whitespace stripped) rounded half-up to the nearest integer. -/
theorem c2_kilogram_rounded (ordNum : String) (cells : List String)
    (rec : QuotaRecord) (numTok unitTok : String) (d : Dec)
    (hrow : processRow ordNum cells = some rec)
    (hmatch : matchBalance (jsTrim (cells.getD 4 "")) = some (numTok, unitTok))
    (hunit : strLower unitTok = "kilogram" ∨ strLower unitTok = "kg")
    (hval : jsParseFloat (stripWs numTok) = some d) :
    rec.balanceKg = some ⌊decVal d + 1 / 2⌋ := by
  rw [processRow_some_balanceKg ordNum cells rec numTok unitTok hrow hmatch]
  have hb : (listIsPref [ 't' ] (strLower unitTok).data ||
      ((strLower unitTok).data == [ 't', 'n', 'e' ])) = false := by
    rcases hunit with h | h <;> rw [h] <;> decide
  rw [balanceKgOf_kg numTok unitTok hb, hval]
  simp only [Option.map_some']
  rw [jsRoundDec_eq_floor]

/-- C2 witness: the claim's two examples, `1234.4 Kilogram` giving 1234 kg
and `1234.5 Kilogram` giving 1235 kg. -/
theorem c2_kilogram_rounded_witness :
    (some (1234 : ℤ) = some ⌊decVal ⟨12344, 1⟩ + 1 / 2⌋) ∧
    (some (1235 : ℤ) = some ⌊decVal ⟨12345, 1⟩ + 1 / 2⌋) :=
  ⟨c2_kilogram_rounded "098701"
      [ "098701", "Brazil", "01-01-2025", "31-12-2025", "1234.4 Kilogram" ]
      { orderNumber := "098701", origin := "Brazil", startDate := "01-01-2025",
        endDate := "31-12-2025", balance := "1234 Kilogram",
        balanceKg := some 1234, unit := "Kilogram",
        moreInfoUrl := "https://ec.europa.eu/taxation_customs/dds2/taric/quota_tariff_details.jsp?Lang=en&StartDate=2025-01-01&Code=098701" }
      "1234.4 " "Kilogram" ⟨12344, 1⟩ (by decide) (by decide) (Or.inl (by decide))
      (by decide),
   c2_kilogram_rounded "098701"
      [ "098701", "Brazil", "01-01-2025", "31-12-2025", "1234.5 Kilogram" ]
      { orderNumber := "098701", origin := "Brazil", startDate := "01-01-2025",
        endDate := "31-12-2025", balance := "1235 Kilogram",
        balanceKg := some 1235, unit := "Kilogram",
        moreInfoUrl := "https://ec.europa.eu/taxation_customs/dds2/taric/quota_tariff_details.jsp?Lang=en&StartDate=2025-01-01&Code=098701" }
      "1234.5 " "Kilogram" ⟨12345, 1⟩ (by decide) (by decide) (Or.inl (by decide))
      (by decide)⟩

theorem balanceKgOf_num_nonneg (numTok unitTok : String) (d : Dec)
    (h : balanceKgOf numTok unitTok = some d) : 0 ≤ d.num := by
  simp only [balanceKgOf] at h
  split at h
  · rw [Option.map_eq_some'] at h
    obtain ⟨d0, hd0, hd⟩ := h
    subst hd
    exact jsRoundDec_nonneg _ (by
      have := parseDecList_num_nonneg _ _ hd0
      positivity)
  · exact parseDecList_num_nonneg _ _ h

theorem processRow_balanceKg_nonneg (ordNum : String) (cells : List String)
    (rec : QuotaRecord) (n : ℤ) (hrow : processRow ordNum cells = some rec)
    (hn : rec.balanceKg = some n) : 0 ≤ n := by
  unfold processRow at hrow
  split at hrow
  · exact absurd hrow (by simp)
  · split at hrow
    · exact absurd hrow (by simp)
    · split at hrow
      · exact absurd hrow (by simp)
      · rw [Option.some.injEq] at hrow
        subst hrow
        simp only [Option.map_eq_some'] at hn
        obtain ⟨d, hd, hdn⟩ := hn
        subst hdn
        exact jsRoundDec_nonneg d (balanceKgOf_num_nonneg _ _ _ hd)

/-- C3 counterexample: the balance cell `. Kilogram` matches the pattern
(numeric token `. `), `parseFloat('.')` is `NaN`, and the extraction still
succeeds — with `balanceKg = NaN` (`none`), not a non-negative integer, and
`balance = "NaN Kilogram"`. -/
theorem c3_counterexample :
    (extract [[ "098701", "BR", "01-01-2025", "31-12-2025", ". Kilogram" ]]
        "098701").map QuotaRecord.balanceKg = some none ∧
    (extract [[ "098701", "BR", "01-01-2025", "31-12-2025", ". Kilogram" ]]
        "098701").map QuotaRecord.balance = some "NaN Kilogram" := by
  constructor
  · decide
  · decide

/-- C3 (amended): for every successful extraction, `balanceKg` is either
`NaN` — exactly when the matched numeric token parses to `NaN` — or a
non-negative integer number of kilograms; it is never a negative or
fractional number. -/
theorem c3_balanceKg_nonneg (doc : List (List String)) (ordNum : String)
    (rec : QuotaRecord) (n : ℤ) (hex : extract doc ordNum = some rec)
    (hn : rec.balanceKg = some n) : 0 ≤ n := by
  induction doc with
  | nil => exact absurd hex (by simp [extract])
  | cons row rest ih =>
      unfold extract at hex
      cases h : processRow ordNum row with
      | none =>
          rw [h] at hex
          exact ih hex
      | some r =>
          rw [h] at hex
          rw [Option.some.injEq] at hex
          subst hex
          exact processRow_balanceKg_nonneg ordNum row r n h hn

/-- C3 (amended) witness: a concrete successful extraction whose numeric
`balanceKg` of 12000 is non-negative. -/
theorem c3_balanceKg_nonneg_witness : (0 : ℤ) ≤ 12000 :=
  c3_balanceKg_nonneg
    [ [ "098701", "Brazil", "01-01-2025", "31-12-2025", "12 Tonne" ] ] "098701"
    { orderNumber := "098701", origin := "Brazil", startDate := "01-01-2025",
      endDate := "31-12-2025", balance := "12000 Kilogram",
      balanceKg := some 12000, unit := "Kilogram",
      moreInfoUrl := "https://ec.europa.eu/taxation_customs/dds2/taric/quota_tariff_details.jsp?Lang=en&StartDate=2025-01-01&Code=098701" }
    12000 (by decide) (by decide)

theorem extract_cons (row : List String) (rest : List (List String))
    (ordNum : String) :
    extract (row :: rest) ordNum =
      match processRow ordNum row with
      | some r => some r
      | none => extract rest ordNum := rfl

instance instDecRowGood (ordNum : String) (cells : List String) :
    Decidable (rowGood ordNum cells) :=
  inferInstanceAs (Decidable (5 ≤ cells.length ∧ jsTrim (cells.getD 0 "") = ordNum ∧
    matchBalance (jsTrim (cells.getD 4 "")) ≠ none))

theorem processRow_eq_none_of_noMatch (ordNum : String) (cells : List String)
    (hm : matchBalance (jsTrim (cells.getD 4 "")) = none) :
    processRow ordNum cells = none := by
  unfold processRow
  split
  · rfl
  · split
    · rfl
    · split
      · rfl
      · next heq => rw [hm] at heq; exact absurd heq (by simp)

theorem processRow_eq_none_of_not_good (ordNum : String) (cells : List String)
    (h : ¬ rowGood ordNum cells) : processRow ordNum cells = none := by
  unfold processRow
  split
  · rfl
  · next hlen =>
      split
      · rfl
      · next hord =>
          split
          · rfl
          · next heq =>
              exact absurd ⟨by omega, not_not.mp hord, by rw [heq]; simp⟩ h

theorem extract_eq_none_of_no_good (doc : List (List String)) (ordNum : String)
    (h : ∀ cells ∈ doc, ¬ rowGood ordNum cells) : extract doc ordNum = none := by
  induction doc with
  | nil => rfl
  | cons row rest ih =>
      unfold extract
      rw [processRow_eq_none_of_not_good ordNum row (h row (by simp))]
      exact ih fun cells hc => h cells (by simp [hc])

/-- C5: a row whose first cell matches the queried order number but whose
balance cell does not match the numeric-value-plus-unit pattern is skipped
without error and scanning continues with the later rows; when no row is both
key-matching and balance-parseable the extraction result is `none` and the
handler's outcome is the NotFound (404) response — the same outcome as when no
key matches at all — not a failure. -/
theorem c5_malformed_balance_skipped :
    (∀ (ordNum : String) (cells : List String) (rest : List (List String)),
        jsTrim (cells.getD 0 "") = ordNum →
        matchBalance (jsTrim (cells.getD 4 "")) = none →
        extract (cells :: rest) ordNum = extract rest ordNum) ∧
    (∀ (doc : List (List String)) (ordNum : String),
        (∀ cells ∈ doc, ¬ rowGood ordNum cells) → extract doc ordNum = none) ∧
    (∀ (ordNum yearS origin : String) (doc : List (List String)),
        (∀ cells ∈ doc, ¬ rowGood ordNum cells) →
        (handleCore ordNum yearS origin doc allOk).resp =
          Resp.notFound ordNum origin yearS) := by
  refine ⟨fun ordNum cells rest _ hm => ?_, extract_eq_none_of_no_good,
    fun ordNum yearS origin doc h => ?_⟩
  · rw [extract_cons, processRow_eq_none_of_noMatch ordNum cells hm]
  · simp [handleCore, allOk, extract_eq_none_of_no_good doc ordNum h]

/-- C5 witness: a row whose key matches `098701` but whose balance cell is
unparseable is skipped (so scanning continues with the rest), and a document
containing only that row produces `none` and the 404 NotFound response. -/
theorem c5_malformed_balance_skipped_witness :
    extract [ [ "098701", "BR", "01-01-2025", "31-12-2025", "pending" ],
        [ "098702", "PE", "01-01-2025", "31-12-2025", "7 Tonne" ] ] "098701" =
      extract [ [ "098702", "PE", "01-01-2025", "31-12-2025", "7 Tonne" ] ] "098701" ∧
    extract [ [ "098701", "BR", "01-01-2025", "31-12-2025", "pending" ] ] "098701" = none ∧
    (handleCore "098701" "2025" "BR"
        [ [ "098701", "BR", "01-01-2025", "31-12-2025", "pending" ] ] allOk).resp =
      Resp.notFound "098701" "BR" "2025" :=
  ⟨c5_malformed_balance_skipped.1 "098701"
      [ "098701", "BR", "01-01-2025", "31-12-2025", "pending" ]
      [ [ "098702", "PE", "01-01-2025", "31-12-2025", "7 Tonne" ] ]
      (by decide) (by decide),
   c5_malformed_balance_skipped.2.1
      [ [ "098701", "BR", "01-01-2025", "31-12-2025", "pending" ] ] "098701"
      (by decide),
   c5_malformed_balance_skipped.2.2 "098701" "2025" "BR"
      [ [ "098701", "BR", "01-01-2025", "31-12-2025", "pending" ] ]
      (by decide)⟩

theorem processRow_fields (ordNum : String) (cells : List String)
    (rec : QuotaRecord) (hrow : processRow ordNum cells = some rec) :
    rec.orderNumber = ordNum ∧ rec.startDate = jsTrim (cells.getD 2 "") ∧
    rec.unit = "Kilogram" ∧ rec.balance = jsIntStr rec.balanceKg ++ " Kilogram" ∧
    rec.moreInfoUrl =
      "https://ec.europa.eu/taxation_customs/dds2/taric/quota_tariff_details.jsp?Lang=en&StartDate="
        ++ reverseDashed rec.startDate ++ "&Code=" ++ rec.orderNumber := by
  unfold processRow at hrow
  split at hrow
  · exact absurd hrow (by simp)
  · split at hrow
    · exact absurd hrow (by simp)
    · split at hrow
      · exact absurd hrow (by simp)
      · rw [Option.some.injEq] at hrow
        subst hrow
        exact ⟨rfl, rfl, rfl, rfl, rfl⟩

theorem extract_comes_from_row (doc : List (List String)) (ordNum : String)
    (rec : QuotaRecord) (hex : extract doc ordNum = some rec) :
    ∃ cells ∈ doc, processRow ordNum cells = some rec := by
  induction doc with
  | nil => exact absurd hex (by simp [extract])
  | cons row rest ih =>
      rw [extract_cons] at hex
      cases h : processRow ordNum row with
      | none =>
          rw [h] at hex
          obtain ⟨cells, hc, hp⟩ := ih hex
          exact ⟨cells, by simp [hc], hp⟩
      | some r =>
          rw [h] at hex
          rw [Option.some.injEq] at hex
          subst hex
          exact ⟨row, by simp, h⟩

/-- C6: for every successful extraction, `moreInfoUrl` is deterministically
derived from the trimmed start-date text and the order number only: the
hyphen-separated day-month-year components of the start date are reversed
into year-month-day order and substituted, with the order number, into the
fixed detail-page URL template. -/
theorem c6_moreInfoUrl_derived (doc : List (List String)) (ordNum : String)
    (rec : QuotaRecord) (hex : extract doc ordNum = some rec) :
    rec.orderNumber = ordNum ∧
    rec.moreInfoUrl =
      "https://ec.europa.eu/taxation_customs/dds2/taric/quota_tariff_details.jsp?Lang=en&StartDate="
        ++ reverseDashed rec.startDate ++ "&Code=" ++ rec.orderNumber := by
  obtain ⟨cells, _, hrow⟩ := extract_comes_from_row doc ordNum rec hex
  obtain ⟨h1, _, _, _, h5⟩ := processRow_fields ordNum cells rec hrow
  exact ⟨h1, h5⟩

/-- C6 witness: a start date `05-03-2025` yields the reordered segment
`2025-03-05` embedded in the output URL. -/
theorem c6_moreInfoUrl_derived_witness :
    (( "098701" : String) = "098701" ∧
      ( "https://ec.europa.eu/taxation_customs/dds2/taric/quota_tariff_details.jsp?Lang=en&StartDate=2025-03-05&Code=098701" : String) =
        "https://ec.europa.eu/taxation_customs/dds2/taric/quota_tariff_details.jsp?Lang=en&StartDate="
          ++ reverseDashed "05-03-2025" ++ "&Code=" ++ "098701") ∧
    HasSubstr "2025-03-05"
      "https://ec.europa.eu/taxation_customs/dds2/taric/quota_tariff_details.jsp?Lang=en&StartDate=2025-03-05&Code=098701" :=
  ⟨c6_moreInfoUrl_derived
      [ [ "098701", "Brazil", "05-03-2025", "31-12-2025", "500 Tonne" ] ] "098701"
      { orderNumber := "098701", origin := "Brazil", startDate := "05-03-2025",
        endDate := "31-12-2025", balance := "500000 Kilogram",
        balanceKg := some 500000, unit := "Kilogram",
        moreInfoUrl := "https://ec.europa.eu/taxation_customs/dds2/taric/quota_tariff_details.jsp?Lang=en&StartDate=2025-03-05&Code=098701" }
      (by decide),
   ⟨( "https://ec.europa.eu/taxation_customs/dds2/taric/quota_tariff_details.jsp?Lang=en&StartDate=" : String).data,
    ( "&Code=098701" : String).data, by decide⟩⟩

/-- C8: every successful extraction's record carries a `balance` string field
equal to the (rounded) `balanceKg` value rendered as text followed by
`" Kilogram"`, and a `unit` field fixed to `"Kilogram"`; in particular, when
`balanceKg` is the integer `n`, `balance` is `toString n ++ " Kilogram"` —
the three fields are mutually consistent. -/
theorem c8_balance_fields_consistent (doc : List (List String)) (ordNum : String)
    (rec : QuotaRecord) (hex : extract doc ordNum = some rec) :
    rec.unit = "Kilogram" ∧ rec.balance = jsIntStr rec.balanceKg ++ " Kilogram" ∧
    ∀ n : ℤ, rec.balanceKg = some n → rec.balance = toString n ++ " Kilogram" := by
  obtain ⟨cells, _, hrow⟩ := extract_comes_from_row doc ordNum rec hex
  obtain ⟨_, _, h3, h4, _⟩ := processRow_fields ordNum cells rec hrow
  refine ⟨h3, h4, fun n hn => ?_⟩
  rw [h4, hn]
  rfl

/-- C8 witness: a concrete extraction with `balanceKg = 12000`,
`balance = "12000 Kilogram"` and `unit = "Kilogram"`. -/
theorem c8_balance_fields_consistent_witness :
    ( "Kilogram" : String) = "Kilogram" ∧
    ( "12000 Kilogram" : String) = jsIntStr (some 12000) ++ " Kilogram" ∧
    ( "12000 Kilogram" : String) = toString (12000 : ℤ) ++ " Kilogram" :=
  ⟨(c8_balance_fields_consistent
      [ [ "098701", "Brazil", "01-01-2025", "31-12-2025", "12 Tonne" ] ] "098701"
      { orderNumber := "098701", origin := "Brazil", startDate := "01-01-2025",
        endDate := "31-12-2025", balance := "12000 Kilogram",
        balanceKg := some 12000, unit := "Kilogram",
        moreInfoUrl := "https://ec.europa.eu/taxation_customs/dds2/taric/quota_tariff_details.jsp?Lang=en&StartDate=2025-01-01&Code=098701" }
      (by decide)).1,
   (c8_balance_fields_consistent
      [ [ "098701", "Brazil", "01-01-2025", "31-12-2025", "12 Tonne" ] ] "098701"
      { orderNumber := "098701", origin := "Brazil", startDate := "01-01-2025",
        endDate := "31-12-2025", balance := "12000 Kilogram",
        balanceKg := some 12000, unit := "Kilogram",
        moreInfoUrl := "https://ec.europa.eu/taxation_customs/dds2/taric/quota_tariff_details.jsp?Lang=en&StartDate=2025-01-01&Code=098701" }
      (by decide)).2.1,
   (c8_balance_fields_consistent
      [ [ "098701", "Brazil", "01-01-2025", "31-12-2025", "12 Tonne" ] ] "098701"
      { orderNumber := "098701", origin := "Brazil", startDate := "01-01-2025",
        endDate := "31-12-2025", balance := "12000 Kilogram",
        balanceKg := some 12000, unit := "Kilogram",
        moreInfoUrl := "https://ec.europa.eu/taxation_customs/dds2/taric/quota_tariff_details.jsp?Lang=en&StartDate=2025-01-01&Code=098701" }
      (by decide)).2.2 12000 rfl⟩

/-- Head test used to state that a unit token cannot be absorbed into the
numeric class: the list is empty or starts with a non-`[\d\s.]` character. -/
def headNotNum (l : List Char) : Bool :=
  match l with
  | [] => true
  | c :: _ => ! isNumClass c

theorem takeWhile_append_all (p : Char → Bool) (a b : List Char)
    (h : ∀ c ∈ a, p c = true) :
    (a ++ b).takeWhile p = a ++ b.takeWhile p := by
  induction a with
  | nil => simp
  | cons c cs ih =>
      simp only [List.cons_append, List.takeWhile_cons]
      rw [h c (by simp)]
      simp only [if_true]
      rw [ih fun x hx => h x (by simp [hx])]

theorem dropWhile_append_all (p : Char → Bool) (a b : List Char)
    (h : ∀ c ∈ a, p c = true) :
    (a ++ b).dropWhile p = b.dropWhile p := by
  induction a with
  | nil => simp
  | cons c cs ih =>
      simp only [List.cons_append, List.dropWhile_cons]
      rw [h c (by simp)]
      simp only [if_true]
      exact ih fun x hx => h x (by simp [hx])

theorem space_imp_numClass (c : Char) (h : isJsSpace c = true) :
    isNumClass c = true := by
  unfold isNumClass
  rw [h]
  simp

theorem takeWhile_numClass_nil (l : List Char) (h : headNotNum l = true) :
    l.takeWhile isNumClass = [] := by
  cases l with
  | nil => rfl
  | cons c r =>
      unfold headNotNum at h
      simp only [Bool.not_eq_true'] at h
      simp [List.takeWhile_cons, h]

theorem dropWhile_space_id (l : List Char) (h : headNotNum l = true) :
    l.dropWhile isJsSpace = l := by
  cases l with
  | nil => rfl
  | cons c r =>
      unfold headNotNum at h
      simp only [Bool.not_eq_true'] at h
      have hs : isJsSpace c = false := by
        cases hjs : isJsSpace c
        · rfl
        · rw [space_imp_numClass c hjs] at h
          exact absurd h (by simp)
      simp [List.dropWhile_cons, hs]

theorem findMatch_num_unit (num u w : List Char)
    (hnum : ∀ c ∈ num, isNumClass c = true) (hne : num ≠ [])
    (hu : headNotNum u = true) (hw : matchUnitAt u = some w) :
    findMatch (num ++ u) = some (num, w) := by
  obtain ⟨c, cs, rfl⟩ : ∃ c cs, num = c :: cs := by
    cases num with
    | nil => exact absurd rfl hne
    | cons c cs => exact ⟨c, cs, rfl⟩
  have htw : ((c :: cs) ++ u).takeWhile isNumClass = c :: cs := by
    rw [takeWhile_append_all _ _ _ hnum, takeWhile_numClass_nil u hu, List.append_nil]
  have hdl : ((c :: cs) ++ u).drop (Nat.succ cs.length) = u := by
    have h0 := List.drop_left (c :: cs) u
    simp only [List.length_cons] at h0
    exact h0
  have htl : ((c :: cs) ++ u).take (Nat.succ cs.length) = c :: cs := by
    have h0 := List.take_left (c :: cs) u
    simp only [List.length_cons] at h0
    exact h0
  have hms : matchAtStart ((c :: cs) ++ u) = some (c :: cs, w) := by
    unfold matchAtStart
    rw [htw]
    show greedyFrom ((c :: cs) ++ u) (Nat.succ cs.length) = some (c :: cs, w)
    rw [greedyFrom, hdl, dropWhile_space_id u hu, hw, htl]
  show findMatch (c :: (cs ++ u)) = some (c :: cs, w)
  rw [findMatch]
  simp only [← List.cons_append]
  rw [hms]

theorem tryUnit_lower_congr (w l1 l2 : List Char)
    (h : l1.map asciiToLower = l2.map asciiToLower) :
    Option.map (List.map asciiToLower) (tryUnit w l1) =
      Option.map (List.map asciiToLower) (tryUnit w l2) := by
  have hlen : l1.length = l2.length := by
    have h0 := congrArg List.length h
    simpa using h0
  have htake : (l1.take w.length).map asciiToLower = (l2.take w.length).map asciiToLower := by
    rw [List.map_take, List.map_take, h]
  have hlt : (l1.take w.length).length = (l2.take w.length).length := by
    rw [List.length_take, List.length_take, hlen]
  simp only [tryUnit]
  rw [htake, hlt]
  split
  · simp only [Option.map_some']
    rw [htake]
  · rfl

theorem optLower_orElse_congr (a b a2 b2 : Option (List Char))
    (ha : Option.map (List.map asciiToLower) a = Option.map (List.map asciiToLower) a2)
    (hb : Option.map (List.map asciiToLower) b = Option.map (List.map asciiToLower) b2) :
    Option.map (List.map asciiToLower) (a <|> b) =
      Option.map (List.map asciiToLower) (a2 <|> b2) := by
  cases a <;> cases a2 <;> simp_all

theorem matchUnitAt_lower_congr (l1 l2 : List Char)
    (h : l1.map asciiToLower = l2.map asciiToLower) :
    Option.map (List.map asciiToLower) (matchUnitAt l1) =
      Option.map (List.map asciiToLower) (matchUnitAt l2) := by
  unfold matchUnitAt
  exact optLower_orElse_congr _ _ _ _ (tryUnit_lower_congr _ _ _ h)
    (optLower_orElse_congr _ _ _ _ (tryUnit_lower_congr _ _ _ h)
      (optLower_orElse_congr _ _ _ _ (tryUnit_lower_congr _ _ _ h)
        (tryUnit_lower_congr _ _ _ h)))

/-- C7: unit matching is case-insensitive.  For any numeric token and any two
unit tokens that the alternation accepts and that differ only in letter case
(equal after lower-casing), the balance cells obtained by appending either
unit token to the numeric token produce identical `balanceKg` results. -/
theorem c7_unit_case_insensitive (num u1 u2 : String)
    (hnum : ∀ c ∈ num.data, isNumClass c = true) (hne : num.data ≠ [])
    (hu1 : headNotNum u1.data = true) (hu2 : headNotNum u2.data = true)
    (hm1 : matchUnitAt u1.data ≠ none) (hm2 : matchUnitAt u2.data ≠ none)
    (hlow : u1.data.map asciiToLower = u2.data.map asciiToLower) :
    cellBalanceKg (num ++ u1) = cellBalanceKg (num ++ u2) := by
  obtain ⟨w1, hw1⟩ := Option.ne_none_iff_exists'.mp hm1
  obtain ⟨w2, hw2⟩ := Option.ne_none_iff_exists'.mp hm2
  have hcong := matchUnitAt_lower_congr u1.data u2.data hlow
  rw [hw1, hw2] at hcong
  simp only [Option.map_some'] at hcong
  rw [Option.some.injEq] at hcong
  have hf1 := findMatch_num_unit num.data u1.data w1 hnum hne hu1 hw1
  have hf2 := findMatch_num_unit num.data u2.data w2 hnum hne hu2 hw2
  unfold cellBalanceKg matchBalance
  rw [String.data_append, String.data_append, hf1, hf2]
  simp only [Option.map_some']
  have hsl : strLower (String.mk w1) = strLower (String.mk w2) := by
    unfold strLower
    rw [show (String.mk w1).data = w1 from rfl, show (String.mk w2).data = w2 from rfl,
      hcong]
  simp only [balanceKgOf]
  rw [hsl]

/-- C7 witness: the cells `12 TONNE` and `12 tonne` (and `12 Tonne`) yield
the same `balanceKg`, namely 12000. -/
theorem c7_unit_case_insensitive_witness :
    cellBalanceKg ( "12 " ++ "TONNE") = cellBalanceKg ( "12 " ++ "tonne") ∧
    cellBalanceKg ( "12 " ++ "Tonne") = cellBalanceKg ( "12 " ++ "tonne") ∧
    cellBalanceKg "12 TONNE" = some (some 12000) ∧
    cellBalanceKg "12 tonne" = some (some 12000) ∧
    cellBalanceKg "12 Tonne" = some (some 12000) :=
  ⟨c7_unit_case_insensitive "12 " "TONNE" "tonne" (by decide) (by decide)
      (by decide) (by decide) (by decide) (by decide) (by decide),
   c7_unit_case_insensitive "12 " "Tonne" "tonne" (by decide) (by decide)
      (by decide) (by decide) (by decide) (by decide) (by decide),
   by decide, by decide, by decide⟩

/-- C9: whenever any of the three query parameters is absent or empty, the
handler returns the 400 response listing the required parameter names and
echoing the received query, and the trace shows no launched session, no
navigation and no teardown. -/
theorem c9_missing_params_rejected (q : Query) (doc : List (List String))
    (fs : FailSpec)
    (h : (falsy q.orderNumber || falsy q.year || falsy q.origin) = true) :
    handle q doc fs =
      ⟨Resp.badRequest [ "orderNumber", "year", "origin" ] q, []⟩ ∧
    (handle q doc fs).resp.statusCode = 400 ∧
    countLaunch (handle q doc fs).trace = 0 ∧
    countClose (handle q doc fs).trace = 0 ∧
    (∀ u, Ev.goto u ∉ (handle q doc fs).trace) := by
  have he : handle q doc fs =
      ⟨Resp.badRequest [ "orderNumber", "year", "origin" ] q, []⟩ := by
    unfold handle
    rw [h]
    rfl
  refine ⟨he, ?_, ?_, ?_, ?_⟩ <;> rw [he]
  · rfl
  · rfl
  · rfl
  · intro u hu
    exact absurd hu (by simp)

/-- C9 witness: a request with the `year` parameter absent is rejected with
400, its query echoed, and an empty session trace. -/
theorem c9_missing_params_rejected_witness :
    handle ⟨some "098701", none, some "BR"⟩ [] allOk =
      ⟨Resp.badRequest [ "orderNumber", "year", "origin" ]
        ⟨some "098701", none, some "BR"⟩, []⟩ ∧
    (handle ⟨some "098701", none, some "BR"⟩ [] allOk).resp.statusCode = 400 ∧
    countLaunch (handle ⟨some "098701", none, some "BR"⟩ [] allOk).trace = 0 ∧
    countClose (handle ⟨some "098701", none, some "BR"⟩ [] allOk).trace = 0 ∧
    Ev.goto "u" ∉ (handle ⟨some "098701", none, some "BR"⟩ [] allOk).trace :=
  ⟨(c9_missing_params_rejected ⟨some "098701", none, some "BR"⟩ [] allOk (by decide)).1,
   (c9_missing_params_rejected ⟨some "098701", none, some "BR"⟩ [] allOk (by decide)).2.1,
   (c9_missing_params_rejected ⟨some "098701", none, some "BR"⟩ [] allOk (by decide)).2.2.1,
   (c9_missing_params_rejected ⟨some "098701", none, some "BR"⟩ [] allOk (by decide)).2.2.2.1,
   (c9_missing_params_rejected ⟨some "098701", none, some "BR"⟩ [] allOk (by decide)).2.2.2.2 "u"⟩

def headNotDigit (l : List Char) : Bool :=
  match l with
  | [] => true
  | c :: _ => ! isDigitChar c

def noHexMark (l : List Char) : Bool :=
  match l with
  | 'x' :: _ => false
  | 'X' :: _ => false
  | _ => true

theorem digit_not_space (c : Char) (h : isDigitChar c = true) : isJsSpace c = false := by
  simp only [isDigitChar, Bool.and_eq_true, decide_eq_true_eq] at h
  rw [Bool.eq_false_iff]
  intro hs
  simp only [isJsSpace, Bool.or_eq_true, Bool.and_eq_true, decide_eq_true_eq] at hs
  omega

theorem takeWhile_digit_nil (l : List Char) (h : headNotDigit l = true) :
    l.takeWhile isDigitChar = [] := by
  cases l with
  | nil => rfl
  | cons c r =>
      unfold headNotDigit at h
      simp only [Bool.not_eq_true'] at h
      simp [List.takeWhile_cons, h]

theorem parseIntBody_digits_extension (ds : List Char) (t : String)
    (hds : ds ≠ []) (hdig : ∀ c ∈ ds, isDigitChar c = true)
    (ht : headNotDigit t.data = true)
    (hx : ds = [ '0' ] → noHexMark t.data = true) :
    parseIntBody (ds ++ t.data) = some (digitsToNat ds) := by
  have htw : (ds ++ t.data).takeWhile isDigitChar = ds := by
    rw [takeWhile_append_all _ _ _ hdig, takeWhile_digit_nil t.data ht, List.append_nil]
  obtain ⟨c0, cs, rfl⟩ : ∃ c0 cs, ds = c0 :: cs := by
    cases ds with
    | nil => exact absurd rfl hds
    | cons c0 cs => exact ⟨c0, cs, rfl⟩
  have hc0 : isDigitChar c0 = true := hdig c0 (by simp)
  unfold parseIntBody
  split
  · next r heq =>
      rw [List.cons_append] at heq
      rw [List.cons_eq_cons] at heq
      obtain ⟨hc, hrest⟩ := heq
      subst hc
      cases cs with
      | nil =>
          simp only [List.nil_append] at hrest
          have := hx rfl
          rw [hrest] at this
          simp [noHexMark] at this
      | cons c1 cs1 =>
          rw [List.cons_append, List.cons_eq_cons] at hrest
          obtain ⟨hc1, _⟩ := hrest
          have := hdig c1 (by simp)
          rw [hc1] at this
          exact absurd this (by decide)
  · next r heq =>
      rw [List.cons_append] at heq
      rw [List.cons_eq_cons] at heq
      obtain ⟨hc, hrest⟩ := heq
      subst hc
      cases cs with
      | nil =>
          simp only [List.nil_append] at hrest
          have := hx rfl
          rw [hrest] at this
          simp [noHexMark] at this
      | cons c1 cs1 =>
          rw [List.cons_append, List.cons_eq_cons] at hrest
          obtain ⟨hc1, _⟩ := hrest
          have := hdig c1 (by simp)
          rw [hc1] at this
          exact absurd this (by decide)
  · rw [htw]
    rw [if_neg (by simp)]

theorem jsParseInt_digits_extension (ds : List Char) (t : String)
    (hds : ds ≠ []) (hdig : ∀ c ∈ ds, isDigitChar c = true)
    (ht : headNotDigit t.data = true)
    (hx : ds = [ '0' ] → noHexMark t.data = true) :
    jsParseInt (String.mk ds ++ t) = some ((digitsToNat ds : ℕ) : ℤ) := by
  have hbody := parseIntBody_digits_extension ds t hds hdig ht hx
  obtain ⟨c0, cs, rfl⟩ : ∃ c0 cs, ds = c0 :: cs := by
    cases ds with
    | nil => exact absurd rfl hds
    | cons c0 cs => exact ⟨c0, cs, rfl⟩
  have hc0 : isDigitChar c0 = true := hdig c0 (by simp)
  have hdata : (String.mk (c0 :: cs) ++ t).data = c0 :: (cs ++ t.data) := by
    rw [String.data_append]
    rfl
  unfold jsParseInt
  rw [hdata]
  rw [List.dropWhile_cons, digit_not_space c0 hc0]
  simp only [Bool.false_eq_true, if_false]
  split
  · next r heq =>
      rw [List.cons_eq_cons] at heq
      obtain ⟨hc, _⟩ := heq
      rw [hc] at hc0
      exact absurd hc0 (by decide)
  · next r heq =>
      rw [List.cons_eq_cons] at heq
      obtain ⟨hc, _⟩ := heq
      rw [hc] at hc0
      exact absurd hc0 (by decide)
  · rw [show c0 :: (cs ++ t.data) = (c0 :: cs) ++ t.data from rfl, hbody]
    rfl

theorem buildUrl_contains_years (ordNum origin : String) (cy ny : Option ℤ) :
    HasSubstr ( "Year=" ++ jsIntStr cy ++ "&Year=" ++ jsIntStr ny)
      (buildUrl ordNum origin cy ny) := by
  refine ⟨( "https://ec.europa.eu/taxation_customs/dds2/taric/quota_consultation.jsp?Lang=en&Code=" : String).data
      ++ ordNum.data ++ ( "&Origin=" : String).data ++ origin.data
      ++ ( "&Expand=true&" : String).data, [], ?_⟩
  simp [buildUrl, String.data_append, List.append_assoc]

/-- C10 counterexample: the digit-prefix rule does not hold for the
hexadecimal form.  The year string `0xff` has digit prefix `0` and a
non-digit tail `xff`, yet `parseInt` reads it as the hexadecimal literal 255,
so the request proceeds navigating with `Year=255&Year=256` — not with the
numeric prefix 0 — and the year string `0x` parses to `NaN` outright. -/
theorem c10_counterexample :
    jsParseInt "0xff" = some (255 : ℤ) ∧
    digitsToNat [ '0' ] = 0 ∧
    (some (255 : ℤ)) ≠ (some (0 : ℤ)) ∧
    Ev.goto (buildUrl "098701" "BR" (some 255) (some 256)) ∈
      (handle ⟨some "098701", some "0xff", some "BR"⟩ [] allOk).trace ∧
    Ev.goto (buildUrl "098701" "BR" (some 0) (some 1)) ∉
      (handle ⟨some "098701", some "0xff", some "BR"⟩ [] allOk).trace ∧
    jsParseInt "0x" = none := by
  refine ⟨?_, ?_, ?_, ?_, ?_, ?_⟩ <;> decide

/-- C10 (amended): the year query string is parsed with `parseInt`, so a
year string made of a digit prefix followed by trailing non-digit characters
is not rejected: the request proceeds using the numeric prefix `n`,
navigating to a URL that embeds `Year=n&Year=n+1` — except for the
hexadecimal form, the one digit prefix `0` followed by a tail starting with
`x`/`X`, which `parseInt` instead reads as a hexadecimal literal (or `NaN`
for a bare `0x`). -/
theorem c10_parseInt_numeric_prefix (ordNum origin : String) (ds : List Char)
    (t : String) (doc : List (List String))
    (hord : ordNum.data ≠ []) (horig : origin.data ≠ [])
    (hds : ds ≠ []) (hdig : ∀ c ∈ ds, isDigitChar c = true)
    (ht : headNotDigit t.data = true)
    (hx : ds = [ '0' ] → noHexMark t.data = true) :
    jsParseInt (String.mk ds ++ t) = some ((digitsToNat ds : ℕ) : ℤ) ∧
    Ev.goto (buildUrl ordNum origin (some ((digitsToNat ds : ℕ) : ℤ))
        (some (((digitsToNat ds : ℕ) : ℤ) + 1))) ∈
      (handle ⟨some ordNum, some (String.mk ds ++ t), some origin⟩ doc allOk).trace ∧
    HasSubstr ( "Year=" ++ jsIntStr (some ((digitsToNat ds : ℕ) : ℤ)) ++ "&Year="
        ++ jsIntStr (some (((digitsToNat ds : ℕ) : ℤ) + 1)))
      (buildUrl ordNum origin (some ((digitsToNat ds : ℕ) : ℤ))
        (some (((digitsToNat ds : ℕ) : ℤ) + 1))) ∧
    (handle ⟨some ordNum, some (String.mk ds ++ t), some origin⟩ doc allOk).resp.statusCode ≠ 400 := by
  have hpi := jsParseInt_digits_extension ds t hds hdig ht hx
  have hval : (falsy (some ordNum) || falsy (some (String.mk ds ++ t)) ||
      falsy (some origin)) = false := by
    simp only [falsy, Bool.or_eq_false_iff, decide_eq_false_iff_not]
    refine ⟨⟨hord, ?_⟩, horig⟩
    rw [String.data_append]
    simp [hds]
  have hhandle : handle ⟨some ordNum, some (String.mk ds ++ t), some origin⟩ doc allOk =
      handleCore ordNum (String.mk ds ++ t) origin doc allOk := by
    unfold handle
    rw [hval]
    rfl
  refine ⟨hpi, ?_, buildUrl_contains_years ordNum origin _ _, ?_⟩
  · rw [hhandle]
    simp only [handleCore, allOk]
    rw [hpi]
    simp only [Option.map_some']
    cases extract doc ordNum <;> simp
  · rw [hhandle]
    simp only [handleCore, allOk]
    cases extract doc ordNum <;> simp [Resp.statusCode]


/-- C10 witness: the year string `2025x` proceeds with `Year=2025&Year=2026`
in the navigation URL and is not rejected with 400. -/
theorem c10_parseInt_numeric_prefix_witness :
    jsParseInt "2025x" = some (2025 : ℤ) ∧
    Ev.goto (buildUrl "098701" "BR" (some 2025) (some 2026)) ∈
      (handle ⟨some "098701", some "2025x", some "BR"⟩ [] allOk).trace ∧
    HasSubstr ( "Year=" ++ jsIntStr (some 2025) ++ "&Year=" ++ jsIntStr (some 2026))
      (buildUrl "098701" "BR" (some 2025) (some 2026)) ∧
    (handle ⟨some "098701", some "2025x", some "BR"⟩ [] allOk).resp.statusCode ≠ 400 :=
  c10_parseInt_numeric_prefix "098701" "BR" [ '2', '0', '2', '5' ] "x" []
    (by decide) (by decide) (by decide) (by decide) (by decide) (by decide)

/-- C4 counterexample: teardown is not always invoked exactly once.  With all
parameters present and a launched session, if the first `browser.close()`
itself throws (schedule with `closeThrows`), or if sending the response
throws after the browser was already closed (schedule with `respondThrows`),
the `catch` block finds `browser` non-null and invokes `browser.close()` a
second time: one launched session, two teardown invocations. -/
theorem c4_counterexample :
    countLaunch (handle ⟨some "098701", some "2025", some "BR"⟩ []
        ⟨false, false, false, false, false, true, false⟩).trace = 1 ∧
    countClose (handle ⟨some "098701", some "2025", some "BR"⟩ []
        ⟨false, false, false, false, false, true, false⟩).trace = 2 ∧
    countLaunch (handle ⟨some "098701", some "2025", some "BR"⟩ []
        ⟨false, false, false, false, false, false, true⟩).trace = 1 ∧
    countClose (handle ⟨some "098701", some "2025", some "BR"⟩ []
        ⟨false, false, false, false, false, false, true⟩).trace = 2 := by
  refine ⟨?_, ?_, ?_, ?_⟩ <;> decide

/-- C4 (amended): on every execution path of a validated quota request, a
session that fails to launch is never torn down; a launched session is torn
down at least once before control returns, on success, not-found and every
failure path alike; and the teardown happens exactly once unless an exception
is raised at or after the first teardown itself (by `browser.close()` or by
the response send), in which case the error handler invokes teardown a second
time. -/
theorem c4_teardown_amended (q : Query) (doc : List (List String)) (fs : FailSpec)
    (hv : (falsy q.orderNumber || falsy q.year || falsy q.origin) = false) :
    (fs.launchThrows = true →
      countLaunch (handle q doc fs).trace = 0 ∧
        countClose (handle q doc fs).trace = 0) ∧
    (fs.launchThrows = false →
      countLaunch (handle q doc fs).trace = 1 ∧
        1 ≤ countClose (handle q doc fs).trace) ∧
    (fs.launchThrows = false → fs.closeThrows = false → fs.respondThrows = false →
      countClose (handle q doc fs).trace = 1) := by
  have hh : handle q doc fs =
      handleCore (q.orderNumber.getD "") (q.year.getD "") (q.origin.getD "") doc fs := by
    unfold handle
    rw [hv]
    rfl
  rw [hh]
  obtain ⟨l, np, su, g, e, c, r⟩ := fs
  cases l <;> cases np <;> cases su <;> cases g <;> cases e <;> cases c <;> cases r <;>
      simp [handleCore, countClose, countLaunch] <;>
    cases extract doc (q.orderNumber.getD "") <;> simp [countClose, countLaunch]

/-- C4 (amended) witness: on the all-success schedule with all parameters
present, exactly one launch and exactly one teardown happen. -/
theorem c4_teardown_amended_witness :
    (allOk.launchThrows = true →
      countLaunch (handle ⟨some "098701", some "2025", some "BR"⟩ [] allOk).trace = 0 ∧
        countClose (handle ⟨some "098701", some "2025", some "BR"⟩ [] allOk).trace = 0) ∧
    (allOk.launchThrows = false →
      countLaunch (handle ⟨some "098701", some "2025", some "BR"⟩ [] allOk).trace = 1 ∧
        1 ≤ countClose (handle ⟨some "098701", some "2025", some "BR"⟩ [] allOk).trace) ∧
    (allOk.launchThrows = false → allOk.closeThrows = false →
      allOk.respondThrows = false →
      countClose (handle ⟨some "098701", some "2025", some "BR"⟩ [] allOk).trace = 1) :=
  c4_teardown_amended ⟨some "098701", some "2025", some "BR"⟩ [] allOk (by decide)
